import Mathlib

/-!
Verification of the AgentVerse web dashboard's HTTP API client
(src: the ApiClient class with request deduplication, cancellation,
error normalization, health check, and multipart upload helpers).

The client is embedded shallowly: the JavaScript event loop is modelled
by explicit state passing.  Each synchronous block of the source between
suspension points becomes one atomic state transition:
  - startRequest  : the synchronous prefix of ApiClient.request, from the
    dedup lookup through registering the abort controller, starting the
    fetch and (for read requests) publishing the shared promise;
  - settleRequest : the resumption of the request body once the network
    answers, including the error normalization and the finally cleanup;
  - cancelAllRequests, setAccessToken : the synchronous public methods.
Promises are identifiers mapped to a settlement state; the network is an
oracle supplying a FetchOutcome to each settlement step.
-/

/- Association-list maps with JavaScript Map semantics (set overwrites,
delete removes the key). -/

def alookup {κ α : Type} [DecidableEq κ] (m : List (κ × α)) (k : κ) : Option α :=
  match m with
  | [] => none
  | e :: rest => if e.1 = k then some e.2 else alookup rest k

def aset {κ α : Type} [DecidableEq κ] (m : List (κ × α)) (k : κ) (v : α) : List (κ × α) :=
  match m with
  | [] => [(k, v)]
  | e :: rest => if e.1 = k then (k, v) :: rest else e :: aset rest k v

def aerase {κ α : Type} [DecidableEq κ] (m : List (κ × α)) (k : κ) : List (κ × α) :=
  m.filter (fun e => decide (e.1 ≠ k))

def natMem (n : Nat) : List Nat → Bool
  | [] => false
  | m :: rest => (m == n) || natMem n rest

/- JavaScript string truthiness: `v || dflt` on an optional string field,
where both the absent field and the empty string fall back. -/
def jsOrString (v : Option String) (dflt : String) : String :=
  match v with
  | none => dflt
  | some s => if s = "" then dflt else s

/- Error shape thrown by ApiClient.request (interface ApiError). -/
structure ApiError where
  detail : String
  status : Nat
deriving DecidableEq, Repr

/- The slice of RequestInit that ApiClient.request reads: method, body
(already serialized to a string by the callers), extra headers. -/
structure ReqOptions where
  method : Option String
  body : Option String
  headers : List (String × String)
deriving DecidableEq, Repr

/- Source: getRequestKey returns `${options.method || 'GET'}:${endpoint}:${options.body || ''}`. -/
def getRequestKey (endpoint : String) (options : ReqOptions) : String :=
  jsOrString options.method "GET" ++ ":" ++ endpoint ++ ":" ++ jsOrString options.body ""

/- Source condition `!options.method || options.method === 'GET'` guarding
both the dedup lookup and the pendingRequests registration.  JavaScript
truthiness makes the empty-string method count as absent. -/
def isReadMethod (m : Option String) : Bool :=
  match m with
  | none => true
  | some s => s == "" || s == "GET"

/- Source: headers start from Content-Type json, spread options.headers,
then assign Authorization when an access token is set.  Modelled as an
ordered list where the later entry wins (headerValue). -/
def buildHeaders (accessToken : Option String) (extra : List (String × String)) :
    List (String × String) :=
  let base := ("Content-Type", "application/json") :: extra
  match accessToken with
  | none => base
  | some t => base ++ [("Authorization", "Bearer " ++ t)]

def headerValue (hs : List (String × String)) (k : String) : Option String :=
  alookup hs.reverse k

inductive PromiseState where
  | pending
  | resolved (body : String)
  | rejected (e : ApiError)
deriving DecidableEq, Repr

/- One in-flight fetch: its dedup key, the abort controller registered for
it, the promise its callers await, and the request as issued (url and
headers are fixed at issue time). -/
structure NetOp where
  id : Nat
  key : String
  ctrl : Nat
  promise : Nat
  url : String
  headers : List (String × String)
deriving DecidableEq, Repr

/- The ApiClient instance state: baseUrl and accessToken fields, the
pendingRequests and abortControllers maps, plus the modelled runtime
(in-flight fetches, promise table, set of aborted controllers, fresh-id
counter). -/
structure ClientState where
  baseUrl : String
  accessToken : Option String
  pendingRequests : List (String × Nat)
  abortControllers : List (String × Nat)
  ops : List NetOp
  promises : List (Nat × PromiseState)
  abortedCtrls : List Nat
  nextId : Nat
deriving DecidableEq, Repr

def initClient (baseUrl : String) : ClientState :=
  { baseUrl := baseUrl
    accessToken := none
    pendingRequests := []
    abortControllers := []
    ops := []
    promises := []
    abortedCtrls := []
    nextId := 0 }

def setAccessToken (s : ClientState) (token : Option String) : ClientState :=
  { s with accessToken := token }

/- What the awaited network interaction produced, as seen by the catch
clauses of the source: a parsed ok body; a non-ok response whose body
yielded an optional detail field (none when the body did not parse or the
field was missing, which the source maps to the same fallback); a
TypeError mentioning fetch; an abort; or any other thrown value (for
example a JSON parse failure of an ok body). -/
inductive FetchOutcome where
  | success (body : String)
  | httpError (status : Nat) (detailField : Option String)
  | connectFailure
  | abortSignal
  | otherFailure
deriving DecidableEq, Repr

def cancelledError : ApiError :=
  { detail := "Request was cancelled", status := 0 }

def connectError : ApiError :=
  { detail := "Unable to connect to server. Please check your connection and try again.",
    status := 0 }

def genericNetworkError : ApiError :=
  { detail := "Network error. Please check your connection and try again.", status := 0 }

/- Source: `throw { detail: error.detail || 'An error occurred', status: response.status }`
where a body that failed to parse was replaced by `{ detail: 'An error occurred' }`. -/
def httpStatusError (status : Nat) (detailField : Option String) : ApiError :=
  { detail := jsOrString detailField "An error occurred", status := status }

/- Settlement of the request body: when the op's controller was aborted
before the network answered, the awaited call rejects with AbortError and
the caller sees the cancellation error; otherwise the outcome is
normalized exactly as in the source's catch chain. -/
def settleOutcome (aborted : Bool) (outcome : FetchOutcome) : PromiseState :=
  if aborted then PromiseState.rejected cancelledError
  else
    match outcome with
    | FetchOutcome.success body => PromiseState.resolved body
    | FetchOutcome.httpError status d => PromiseState.rejected (httpStatusError status d)
    | FetchOutcome.connectFailure => PromiseState.rejected connectError
    | FetchOutcome.abortSignal => PromiseState.rejected cancelledError
    | FetchOutcome.otherFailure => PromiseState.rejected genericNetworkError

/- The non-deduplicated remainder of ApiClient.request: build headers from
the current token, register a fresh abort controller under the key
(Map.set, overwriting), start the fetch, and re-test the same
read-and-deduplicate condition before publishing the promise in
pendingRequests, as the source does. -/
def startFresh (s : ClientState) (endpoint : String) (options : ReqOptions)
    (deduplicate : Bool) : ClientState × Nat :=
  let requestKey := getRequestKey endpoint options
  let headers := buildHeaders s.accessToken options.headers
  let ctrl := s.nextId
  let pid := s.nextId + 1
  let opId := s.nextId + 2
  let op : NetOp :=
    { id := opId, key := requestKey, ctrl := ctrl, promise := pid,
      url := s.baseUrl ++ endpoint, headers := headers }
  ({ s with
      abortControllers := aset s.abortControllers requestKey ctrl
      ops := s.ops ++ [op]
      promises := s.promises ++ [(pid, PromiseState.pending)]
      pendingRequests :=
        if deduplicate && isReadMethod options.method then
          aset s.pendingRequests requestKey pid
        else s.pendingRequests
      nextId := s.nextId + 3 }, pid)

/- The synchronous prefix of ApiClient.request: for a read request with
deduplication enabled, a hit in pendingRequests returns the shared
promise with no other effect; otherwise the fresh path runs. -/
def startRequest (s : ClientState) (endpoint : String) (options : ReqOptions)
    (deduplicate : Bool) : ClientState × Nat :=
  if deduplicate && isReadMethod options.method then
    match alookup s.pendingRequests (getRequestKey endpoint options) with
    | some pending => (s, pending)
    | none => startFresh s endpoint options deduplicate
  else startFresh s endpoint options deduplicate

/- Resumption of an in-flight request once the network answers: the
result is normalized, and the finally block unconditionally deletes the
request key from pendingRequests and abortControllers before the promise
settles. -/
def settleRequest (s : ClientState) (opId : Nat) (outcome : FetchOutcome) : ClientState :=
  match s.ops.find? (fun o => o.id == opId) with
  | none => s
  | some op =>
    { s with
        ops := s.ops.filter (fun o => o.id != opId)
        pendingRequests := aerase s.pendingRequests op.key
        abortControllers := aerase s.abortControllers op.key
        promises := aset s.promises op.promise
          (settleOutcome (natMem op.ctrl s.abortedCtrls) outcome) }

/- Source: abort every controller currently in the abortControllers map,
then clear both maps. -/
def cancelAllRequests (s : ClientState) : ClientState :=
  { s with
      abortedCtrls := s.abortedCtrls ++ s.abortControllers.map (fun e => e.2)
      pendingRequests := []
      abortControllers := [] }

/- Interleavable client events, for stating concurrency properties. -/
inductive ClientEvent where
  | start (endpoint : String) (options : ReqOptions) (deduplicate : Bool)
  | settle (opId : Nat) (outcome : FetchOutcome)
  | cancelAll
  | setToken (token : Option String)
deriving DecidableEq, Repr

def applyEvent (s : ClientState) (e : ClientEvent) : ClientState :=
  match e with
  | ClientEvent.start endpoint options d => (startRequest s endpoint options d).1
  | ClientEvent.settle opId outcome => settleRequest s opId outcome
  | ClientEvent.cancelAll => cancelAllRequests s
  | ClientEvent.setToken t => setAccessToken s t

def runEvents (s : ClientState) : List ClientEvent → ClientState
  | [] => s
  | e :: es => runEvents (applyEvent s e) es

/- An event that neither invokes the global cancellation nor settles an
operation carrying the given key; such events model the activity allowed
to interleave while a request with that key is still in flight. -/
def eventKeepsKey (s : ClientState) (k : String) (e : ClientEvent) : Bool :=
  match e with
  | ClientEvent.cancelAll => false
  | ClientEvent.settle opId _ =>
    match s.ops.find? (fun o => o.id == opId) with
    | none => true
    | some op => op.key != k
  | _ => true

def keySafeRun (s : ClientState) (k : String) : List ClientEvent → Bool
  | [] => true
  | e :: es => eventKeepsKey s k e && keySafeRun (applyEvent s e) k es

/- Map lemmas. -/

theorem alookup_aset_self {κ α : Type} [DecidableEq κ] (m : List (κ × α)) (k : κ) (v : α) :
    alookup (aset m k v) k = some v := by
  induction m with
  | nil => simp [aset, alookup]
  | cons e rest ih =>
    by_cases h : e.1 = k
    · simp [aset, h, alookup]
    · simp [aset, h, alookup, ih]

theorem alookup_aset_ne {κ α : Type} [DecidableEq κ] (m : List (κ × α)) (k k' : κ) (v : α)
    (h : k' ≠ k) : alookup (aset m k v) k' = alookup m k' := by
  have hk : ¬ (k = k') := fun hh => h hh.symm
  induction m with
  | nil => simp [aset, alookup, hk]
  | cons e rest ih =>
    by_cases he : e.1 = k
    · simp [aset, alookup, he, hk]
    · simp [aset, alookup, he, ih]

theorem alookup_aerase_self {κ α : Type} [DecidableEq κ] (m : List (κ × α)) (k : κ) :
    alookup (aerase m k) k = none := by
  induction m with
  | nil => simp [aerase, alookup]
  | cons e rest ih =>
    by_cases h : e.1 = k
    · simpa [aerase, h] using ih
    · simpa [aerase, alookup, h] using ih

theorem alookup_aerase_ne {κ α : Type} [DecidableEq κ] (m : List (κ × α)) (k k' : κ)
    (h : k' ≠ k) : alookup (aerase m k) k' = alookup m k' := by
  induction m with
  | nil => simp [aerase, alookup]
  | cons e rest ih =>
    have hk : ¬ (k = k') := fun hh => h hh.symm
    simp only [aerase, List.filter_cons] at ih ⊢
    simp only [Ne, decide_not] at ih
    by_cases he : e.1 = k
    · simp [alookup, he, hk, ih]
    · simp [alookup, he, ih]

theorem alookup_all {κ α : Type} [DecidableEq κ] (m : List (κ × α)) (p : α → Bool) (k : κ)
    (v : α) (hall : m.all (fun e => p e.2) = true) (h : alookup m k = some v) : p v = true := by
  induction m with
  | nil => simp [alookup] at h
  | cons e rest ih =>
    rw [List.all_cons, Bool.and_eq_true] at hall
    by_cases he : e.1 = k
    · rw [alookup, if_pos he] at h
      exact (Option.some.injEq _ _ ▸ h) ▸ hall.1
    · rw [alookup, if_neg he] at h
      exact ih hall.2 h

theorem alookup_none_of_forall {κ α : Type} [DecidableEq κ] (m : List (κ × α)) (k : κ)
    (h : ∀ e ∈ m, e.1 ≠ k) : alookup m k = none := by
  induction m with
  | nil => rfl
  | cons e rest ih =>
    rw [alookup, if_neg (h e (List.mem_cons_self e rest))]
    exact ih (fun e' he' => h e' (List.mem_cons_of_mem e he'))

theorem natMem_append_right (n : Nat) (l1 l2 : List Nat) (h : natMem n l2 = true) :
    natMem n (l1 ++ l2) = true := by
  induction l1 with
  | nil => simpa using h
  | cons m rest ih => simp [natMem, ih]

theorem alookup_snd_natMem (m : List (String × Nat)) (k : String) (v : Nat)
    (h : alookup m k = some v) : natMem v (m.map Prod.snd) = true := by
  induction m with
  | nil => simp [alookup] at h
  | cons e rest ih =>
    by_cases he : e.1 = k
    · rw [alookup, if_pos he] at h
      simp [natMem, Option.some.injEq _ _ ▸ h]
    · rw [alookup, if_neg he] at h
      simp [natMem, ih h]

/- Request-start lemmas. -/

theorem startRequest_hit (s : ClientState) (endpoint : String) (opts : ReqOptions) (p : Nat)
    (hread : isReadMethod opts.method = true)
    (hp : alookup s.pendingRequests (getRequestKey endpoint opts) = some p) :
    startRequest s endpoint opts true = (s, p) := by
  simp [startRequest, hread, hp]

theorem pending_after_start (s : ClientState) (endpoint : String) (opts : ReqOptions)
    (hread : isReadMethod opts.method = true) :
    alookup (startRequest s endpoint opts true).1.pendingRequests (getRequestKey endpoint opts)
      = some (startRequest s endpoint opts true).2 := by
  cases hc : alookup s.pendingRequests (getRequestKey endpoint opts) with
  | some p => simp [startRequest, hread, hc]
  | none => simp [startRequest, startFresh, hread, hc, alookup_aset_self]

theorem eventKeepsKey_pending (s : ClientState) (k : String) (p : Nat) (e : ClientEvent)
    (hp : alookup s.pendingRequests k = some p) (he : eventKeepsKey s k e = true) :
    alookup (applyEvent s e).pendingRequests k = some p := by
  cases e with
  | start endpoint opts d =>
    by_cases hs : (d && isReadMethod opts.method) = true
    · cases hc : alookup s.pendingRequests (getRequestKey endpoint opts) with
      | some q => simp [applyEvent, startRequest, hs, hc, hp]
      | none =>
        have hne : k ≠ getRequestKey endpoint opts := by
          intro hh
          rw [hh, hc] at hp
          exact Option.noConfusion hp
        simp [applyEvent, startRequest, startFresh, hs, hc,
          alookup_aset_ne _ _ _ _ hne, hp]
    · simp [applyEvent, startRequest, startFresh, hs, hp]
  | settle opId outcome =>
    cases hf : s.ops.find? (fun o => o.id == opId) with
    | none => simp [applyEvent, settleRequest, hf, hp]
    | some op =>
      rw [eventKeepsKey, hf] at he
      have hne : k ≠ op.key := (Ne.symm (bne_iff_ne.mp he))
      simp [applyEvent, settleRequest, hf, alookup_aerase_ne _ _ _ hne, hp]
  | cancelAll => simp [eventKeepsKey] at he
  | setToken t => simpa [applyEvent, setAccessToken] using hp

theorem keySafeRun_pending (k : String) (p : Nat) :
    ∀ (tr : List ClientEvent) (s : ClientState),
      alookup s.pendingRequests k = some p → keySafeRun s k tr = true →
      alookup (runEvents s tr).pendingRequests k = some p := by
  intro tr
  induction tr with
  | nil =>
    intro s hp _
    simpa [runEvents] using hp
  | cons e es ih =>
    intro s hp hsafe
    rw [keySafeRun, Bool.and_eq_true] at hsafe
    exact ih _ (eventKeepsKey_pending s k p e hp hsafe.1) hsafe.2

/-- C1: two concurrent identical read requests (same method, endpoint and
body) issued through request() with deduplication enabled, the second one
starting while the first is still unsettled (formally: along any
interleaving of further client activity that neither settles an operation
with the shared request key nor invokes the global cancellation), receive
the very same promise: the second call returns the promise of the first
and leaves the client state completely unchanged, so no second network
operation is created for the pair and both callers observe the same
eventual resolution or rejection of that single shared promise. -/
theorem request_dedup_pair (s : ClientState) (endpoint : String)
    (optsA optsB : ReqOptions) (tr : List ClientEvent)
    (hread : isReadMethod optsA.method = true)
    (hm : optsB.method = optsA.method) (hb : optsB.body = optsA.body)
    (hsafe : keySafeRun (startRequest s endpoint optsA true).1
        (getRequestKey endpoint optsA) tr = true) :
    startRequest (runEvents (startRequest s endpoint optsA true).1 tr) endpoint optsB true
      = (runEvents (startRequest s endpoint optsA true).1 tr,
         (startRequest s endpoint optsA true).2) := by
  have hkey : getRequestKey endpoint optsB = getRequestKey endpoint optsA := by
    unfold getRequestKey
    rw [hm, hb]
  have hreadB : isReadMethod optsB.method = true := by rw [hm]; exact hread
  have h1 := pending_after_start s endpoint optsA hread
  have h2 := keySafeRun_pending (getRequestKey endpoint optsA)
      (startRequest s endpoint optsA true).2 tr
      (startRequest s endpoint optsA true).1 h1 hsafe
  refine startRequest_hit _ endpoint optsB _ hreadB ?_
  rw [hkey]
  exact h2

/-- Witness for C1 at a concrete pair: two deduplicated GET requests for
the endpoint "/things/42" on a fresh client, with an unrelated POST and a
token change interleaved between the two issuances. -/
theorem request_dedup_pair_witness :
    startRequest (runEvents (startRequest (initClient "b") "/things/42"
          { method := none, body := none, headers := [] } true).1
        [ClientEvent.start "/other" { method := some "POST", body := some "x", headers := [] } true,
         ClientEvent.setToken (some "tok")]) "/things/42"
        { method := none, body := none, headers := [] } true
      = (runEvents (startRequest (initClient "b") "/things/42"
            { method := none, body := none, headers := [] } true).1
          [ClientEvent.start "/other" { method := some "POST", body := some "x", headers := [] } true,
           ClientEvent.setToken (some "tok")],
         (startRequest (initClient "b") "/things/42"
            { method := none, body := none, headers := [] } true).2) :=
  request_dedup_pair (initClient "b") "/things/42"
    { method := none, body := none, headers := [] }
    { method := none, body := none, headers := [] }
    [ClientEvent.start "/other" { method := some "POST", body := some "x", headers := [] } true,
     ClientEvent.setToken (some "tok")]
    (by decide) (by decide) (by decide) (by decide)

/-- C2: once a request settles, with any outcome whatsoever (success,
HTTP error, transport failure, abort, or any other thrown value), the
cleanup step that runs unconditionally removes its request key from both
the pending-request table and the cancellation registry: immediately
after the settlement step, lookups of the key in both tables return
nothing. -/
theorem settled_request_key_removed (s : ClientState) (op : NetOp) (outcome : FetchOutcome)
    (hfind : s.ops.find? (fun o => o.id == op.id) = some op) :
    alookup (settleRequest s op.id outcome).pendingRequests op.key = none ∧
    alookup (settleRequest s op.id outcome).abortControllers op.key = none := by
  simp [settleRequest, hfind, alookup_aerase_self]

/-- Witness for C2: a GET request on a fresh client settles with an HTTP
500 error and its key is gone from both tables. -/
theorem settled_request_key_removed_witness :
    alookup (settleRequest (startRequest (initClient "b") "/g"
        { method := none, body := none, headers := [] } true).1 2
        (FetchOutcome.httpError 500 none)).pendingRequests "GET:/g:" = none ∧
    alookup (settleRequest (startRequest (initClient "b") "/g"
        { method := none, body := none, headers := [] } true).1 2
        (FetchOutcome.httpError 500 none)).abortControllers "GET:/g:" = none :=
  settled_request_key_removed
    (startRequest (initClient "b") "/g" { method := none, body := none, headers := [] } true).1
    { id := 2, key := "GET:/g:", ctrl := 0, promise := 1, url := "b/g",
      headers := [("Content-Type", "application/json")] }
    (FetchOutcome.httpError 500 none) (by decide)

/-- C3 counterexample: the claim says that cancelAllRequests() makes all
N in-flight callers reject with the cancellation error, but a request
whose abortControllers entry was displaced is not aborted.  Two identical
concurrent POST requests share the request key "POST:/p:x"; the second
Map.set overwrites the first request's controller, so cancelAllRequests
aborts only the second controller.  With both requests in flight (two
pending promises, two operations), after the global cancellation the
first request still settles with the network's own answer: its promise
resolves with the response body instead of rejecting with the
cancellation error. -/
theorem cancelAll_misses_displaced_controller :
    (let opts : ReqOptions := { method := some "POST", body := some "x", headers := [] }
     let s1 := (startRequest (initClient "b") "/p" opts true).1
     let s2 := (startRequest s1 "/p" opts true).1
     let s3 := cancelAllRequests s2
     let s4 := settleRequest s3 2 (FetchOutcome.success "v")
     s2.ops.length = 2 ∧
     alookup s2.promises 1 = some PromiseState.pending ∧
     alookup s2.promises 4 = some PromiseState.pending ∧
     alookup s4.promises 1 = some (PromiseState.resolved "v") ∧
     alookup s4.promises 1 ≠ some (PromiseState.rejected cancelledError)) := by
  decide

/-- C3 (amended): cancelAllRequests() leaves both the pending-request
table and the cancellation registry empty, and every awaiting caller of
an in-flight request whose abort controller is still the one registered
under its key rejects with the cancellation error (detail "Request was
cancelled", status 0) whatever the network would have answered.  An
in-flight request whose registry entry was displaced by a later request
with an identical key (possible only for identical concurrent non-read
requests) is not aborted and settles with its own outcome. -/
theorem cancelAll_rejects_tracked (s : ClientState) (op : NetOp) (outcome : FetchOutcome)
    (hctrl : alookup s.abortControllers op.key = some op.ctrl)
    (hfind : (cancelAllRequests s).ops.find? (fun o => o.id == op.id) = some op) :
    (cancelAllRequests s).pendingRequests = [] ∧
    (cancelAllRequests s).abortControllers = [] ∧
    alookup (settleRequest (cancelAllRequests s) op.id outcome).promises op.promise
      = some (PromiseState.rejected cancelledError) := by
  refine ⟨rfl, rfl, ?_⟩
  have hmem : natMem op.ctrl (s.abortControllers.map Prod.snd) = true :=
    alookup_snd_natMem _ _ _ hctrl
  have habort : natMem op.ctrl (cancelAllRequests s).abortedCtrls = true :=
    natMem_append_right _ _ _ hmem
  simp [settleRequest, hfind, habort, settleOutcome, alookup_aset_self]

/-- Witness for the amended C3: a single GET request on a fresh client is
globally cancelled; even though the network would have answered with a
successful body, the caller's promise rejects with the cancellation
error, and both tables are empty. -/
theorem cancelAll_rejects_tracked_witness :
    (cancelAllRequests (startRequest (initClient "b") "/g"
        { method := none, body := none, headers := [] } true).1).pendingRequests = [] ∧
    (cancelAllRequests (startRequest (initClient "b") "/g"
        { method := none, body := none, headers := [] } true).1).abortControllers = [] ∧
    alookup (settleRequest (cancelAllRequests (startRequest (initClient "b") "/g"
        { method := none, body := none, headers := [] } true).1) 2
        (FetchOutcome.success "ok")).promises 1
      = some (PromiseState.rejected cancelledError) :=
  cancelAll_rejects_tracked
    (startRequest (initClient "b") "/g" { method := none, body := none, headers := [] } true).1
    { id := 2, key := "GET:/g:", ctrl := 0, promise := 1, url := "b/g",
      headers := [("Content-Type", "application/json")] }
    (FetchOutcome.success "ok") (by decide) (by decide)

/-- C4 counterexample: a request whose method is explicitly set to the
empty string is explicitly set and different from "GET", yet it is
deduplicated against a concurrent in-flight GET request for the same
endpoint and body: the source guards the read path with JavaScript
truthiness of options.method, the empty string is falsy, so the
pending-request lookup is consulted and the previously registered
promise is returned unchanged instead of a fresh network operation. -/
theorem empty_method_deduplicated :
    (some "" ≠ some "GET") ∧
    startRequest (startRequest (initClient "b") "/e"
        { method := none, body := none, headers := [] } true).1 "/e"
        { method := some "", body := none, headers := [] } true
      = ((startRequest (initClient "b") "/e"
            { method := none, body := none, headers := [] } true).1,
         (startRequest (initClient "b") "/e"
            { method := none, body := none, headers := [] } true).2) := by
  decide

/-- C4 (amended): for every request whose method is explicitly set to a
non-empty string other than "GET" (an empty-string method counts as
unset under the source's truthiness test and follows the read path
instead), request() never consults or mutates the pending-request table:
the table is unchanged, exactly one new in-flight network operation is
created, and — whenever the fresh-id counter dominates the promise ids
stored in the table, as in every reachable state — the returned promise
is not one previously registered there, for any deduplicate flag. -/
theorem nonread_request_not_deduplicated (s : ClientState) (endpoint : String)
    (opts : ReqOptions) (d : Bool) (m : String)
    (hm : opts.method = some m) (hne : m ≠ "") (hng : m ≠ "GET")
    (hwf : s.pendingRequests.all (fun e => decide (e.2 < s.nextId)) = true) :
    (startRequest s endpoint opts d).1.pendingRequests = s.pendingRequests ∧
    (startRequest s endpoint opts d).1.ops.length = s.ops.length + 1 ∧
    (∀ (k : String) (q : Nat), alookup s.pendingRequests k = some q →
      (startRequest s endpoint opts d).2 ≠ q) := by
  have hread : isReadMethod opts.method = false := by
    rw [hm]
    simp [isReadMethod, hne, hng]
  refine ⟨?_, ?_, ?_⟩
  · simp [startRequest, startFresh, hread]
  · simp [startRequest, startFresh, hread]
  · intro k q hq
    have hlt : q < s.nextId := of_decide_eq_true
      (alookup_all s.pendingRequests (fun x => decide (x < s.nextId)) k q hwf hq)
    have hq2 : (startRequest s endpoint opts d).2 = s.nextId + 1 := by
      simp [startRequest, startFresh, hread]
    rw [hq2]
    omega

/-- Witness for the amended C4: on a client with one in-flight GET for
"/e" (whose shared promise 1 is registered in the table), a POST to the
same endpoint leaves the table unchanged, adds its own operation, and
returns a promise different from the registered one. -/
theorem nonread_request_not_deduplicated_witness :
    (startRequest (startRequest (initClient "b") "/e"
        { method := none, body := none, headers := [] } true).1 "/e"
        { method := some "POST", body := some "x", headers := [] } true).1.pendingRequests
      = (startRequest (initClient "b") "/e"
        { method := none, body := none, headers := [] } true).1.pendingRequests ∧
    (startRequest (startRequest (initClient "b") "/e"
        { method := none, body := none, headers := [] } true).1 "/e"
        { method := some "POST", body := some "x", headers := [] } true).1.ops.length
      = (startRequest (initClient "b") "/e"
        { method := none, body := none, headers := [] } true).1.ops.length + 1 ∧
    (startRequest (startRequest (initClient "b") "/e"
        { method := none, body := none, headers := [] } true).1 "/e"
        { method := some "POST", body := some "x", headers := [] } true).2 ≠ 1 :=
  have h := nonread_request_not_deduplicated
    (startRequest (initClient "b") "/e" { method := none, body := none, headers := [] } true).1
    "/e" { method := some "POST", body := some "x", headers := [] } true "POST"
    rfl (by decide) (by decide) (by decide)
  ⟨h.1, h.2.1, h.2.2 "GET:/e:" 1 (by decide)⟩

/-- C5: setAccessToken mutates only the session token attribute: every
other component of the client state — the in-flight operations with the
headers they were constructed with, both tracking tables, the promise
table and the base URL — is unchanged, so a request already issued keeps
its header state.  Headers are computed synchronously at send time: any
operation existing after a request start either predates the call or
carries exactly the headers built from the token current at that moment,
and (when the caller passes no Authorization header of its own, as every
call site does) the effective Authorization header of those built
headers is the bearer token if and only if a token was set. -/
theorem setAccessToken_only_future (s : ClientState) (t : Option String) (endpoint : String)
    (opts : ReqOptions) (d : Bool)
    (hnoauth : opts.headers.all (fun e => decide (e.1 ≠ "Authorization")) = true) :
    (setAccessToken s t).accessToken = t ∧
    (setAccessToken s t).ops = s.ops ∧
    (setAccessToken s t).pendingRequests = s.pendingRequests ∧
    (setAccessToken s t).abortControllers = s.abortControllers ∧
    (setAccessToken s t).promises = s.promises ∧
    (setAccessToken s t).baseUrl = s.baseUrl ∧
    (∀ op, op ∈ (startRequest s endpoint opts d).1.ops →
      op ∈ s.ops ∨ op.headers = buildHeaders s.accessToken opts.headers) ∧
    headerValue (buildHeaders s.accessToken opts.headers) "Authorization"
      = Option.map (fun tk => "Bearer " ++ tk) s.accessToken := by
  refine ⟨rfl, rfl, rfl, rfl, rfl, rfl, ?_, ?_⟩
  · intro op hop
    have hfresh : ∀ dd, op ∈ (startFresh s endpoint opts dd).1.ops →
        op ∈ s.ops ∨ op.headers = buildHeaders s.accessToken opts.headers := by
      intro dd hmem
      simp only [startFresh, List.mem_append, List.mem_singleton] at hmem
      rcases hmem with h | h
      · exact Or.inl h
      · right
        rw [h]
    rw [startRequest] at hop
    by_cases hs : (d && isReadMethod opts.method) = true
    · rw [if_pos hs] at hop
      cases hc : alookup s.pendingRequests (getRequestKey endpoint opts) with
      | some p =>
        rw [hc] at hop
        exact Or.inl hop
      | none =>
        rw [hc] at hop
        exact hfresh d hop
    · rw [if_neg hs] at hop
      exact hfresh d hop
  · cases ht : s.accessToken with
    | some tk => simp [buildHeaders, headerValue, alookup, List.reverse_append]
    | none =>
      have hall := List.all_eq_true.mp hnoauth
      have hrev : ∀ e ∈ opts.headers.reverse ++ [("Content-Type", "application/json")],
          e.1 ≠ "Authorization" := by
        intro e he
        rcases List.mem_append.mp he with h | h
        · exact of_decide_eq_true (hall e (List.mem_reverse.mp h))
        · rw [List.mem_singleton.mp h]
          decide
      simp [buildHeaders, headerValue, ht, alookup_none_of_forall _ _ hrev]

/-- Witness for C5: with a token set, changing it leaves the tables and
operations as they were, and the headers built before the change carry
the old bearer token. -/
theorem setAccessToken_only_future_witness :
    (setAccessToken (setAccessToken (initClient "b") (some "t0")) (some "t1")).ops
      = (setAccessToken (initClient "b") (some "t0")).ops ∧
    (setAccessToken (setAccessToken (initClient "b") (some "t0")) (some "t1")).pendingRequests
      = (setAccessToken (initClient "b") (some "t0")).pendingRequests ∧
    headerValue (buildHeaders (setAccessToken (initClient "b") (some "t0")).accessToken [])
        "Authorization"
      = Option.map (fun tk => "Bearer " ++ tk)
          (setAccessToken (initClient "b") (some "t0")).accessToken :=
  have h := setAccessToken_only_future (setAccessToken (initClient "b") (some "t0"))
    (some "t1") "/g" { method := none, body := none, headers := [] } true (by decide)
  ⟨h.2.1, h.2.2.1, h.2.2.2.2.2.2.2⟩

/- The three rejection kinds enumerated by the specification for
request(), written from the spec's words to compare against the code:
the cancellation error, the unable-to-connect transport error, and an
HTTP-status error carrying a positive HTTP status taken from the non-ok
response. -/
def specThreeErrorKinds (outcome : FetchOutcome) (e : ApiError) : Bool :=
  decide (e = cancelledError) || decide (e = connectError) ||
    (match outcome with
     | FetchOutcome.httpError st _ => (e.status == st) && decide (0 < st)
     | _ => false)

/-- C6 counterexample: the claim enumerates exactly three rejection
kinds, but the source's catch chain has a fourth: a thrown value that is
neither a TypeError mentioning fetch, nor an AbortError, nor
detail-bearing (for example a JSON parse failure of a response with an
ok status) rejects the caller with detail "Network error. Please check
your connection and try again." and status 0, which is none of the three
enumerated kinds (it is not the cancellation message, not the
unable-to-connect message, and its status 0 is not a non-success HTTP
status). -/
theorem request_fourth_error_kind :
    settleOutcome false FetchOutcome.otherFailure
      = PromiseState.rejected genericNetworkError ∧
    specThreeErrorKinds FetchOutcome.otherFailure genericNetworkError = false := by
  decide

/-- C6 (amended): every failure of request() is surfaced as the
structured detail-and-status shape, drawn from exactly four kinds: the
HTTP-status error carrying the (possibly fallback) detail message and
the response status, the unable-to-connect transport error with status
0, the cancellation error with status 0, and a generic network error
with status 0 for any other thrown value; no other rejection escapes. -/
theorem request_failure_taxonomy (aborted : Bool) (outcome : FetchOutcome) :
    (∃ b, settleOutcome aborted outcome = PromiseState.resolved b) ∨
    settleOutcome aborted outcome = PromiseState.rejected cancelledError ∨
    settleOutcome aborted outcome = PromiseState.rejected connectError ∨
    settleOutcome aborted outcome = PromiseState.rejected genericNetworkError ∨
    (∃ st dfield, outcome = FetchOutcome.httpError st dfield ∧
      settleOutcome aborted outcome = PromiseState.rejected (httpStatusError st dfield)) := by
  cases aborted with
  | false =>
    cases outcome with
    | success b => exact Or.inl ⟨b, rfl⟩
    | httpError st dfield => exact Or.inr (Or.inr (Or.inr (Or.inr ⟨st, dfield, rfl, rfl⟩)))
    | connectFailure => exact Or.inr (Or.inr (Or.inl rfl))
    | abortSignal => exact Or.inr (Or.inl rfl)
    | otherFailure => exact Or.inr (Or.inr (Or.inr (Or.inl rfl)))
  | true => exact Or.inr (Or.inl rfl)

/-- C7: the request key is the method:endpoint:body composite, the
method component defaulting to "GET" when absent and the body component
defaulting to the empty string when absent; a request with no explicit
method and one with method explicitly "GET" (same endpoint and body)
therefore produce identical keys, and the explicit-GET request joins a
pending in-flight request registered under that common key. -/
theorem getRequestKey_composite :
    (∀ (endpoint b m : String) (hd : List (String × String)), m ≠ "" →
      getRequestKey endpoint { method := some m, body := some b, headers := hd }
        = m ++ ":" ++ endpoint ++ ":" ++ b) ∧
    (∀ (endpoint b : String) (hd : List (String × String)),
      getRequestKey endpoint { method := none, body := some b, headers := hd }
        = "GET" ++ ":" ++ endpoint ++ ":" ++ b) ∧
    (∀ (endpoint : String) (hd : List (String × String)),
      getRequestKey endpoint { method := none, body := none, headers := hd }
        = "GET" ++ ":" ++ endpoint ++ ":" ++ "") ∧
    (∀ (endpoint : String) (oA oB : ReqOptions), oA.method = none →
      oB.method = some "GET" → oA.body = oB.body →
      getRequestKey endpoint oA = getRequestKey endpoint oB) ∧
    (∀ (s : ClientState) (endpoint : String) (oG : ReqOptions) (p : Nat),
      oG.method = some "GET" →
      alookup s.pendingRequests (getRequestKey endpoint oG) = some p →
      startRequest s endpoint oG true = (s, p)) := by
  refine ⟨?_, ?_, ?_, ?_, ?_⟩
  · intro endpoint b m hd hm
    simp only [getRequestKey, jsOrString]
    rw [if_neg hm]
    by_cases h : b = ""
    · rw [if_pos h, h]
    · rw [if_neg h]
  · intro endpoint b hd
    simp only [getRequestKey, jsOrString]
    by_cases h : b = ""
    · rw [if_pos h, h]
    · rw [if_neg h]
  · intro endpoint hd
    rfl
  · intro endpoint oA oB h1 h2 h3
    simp only [getRequestKey, h1, h2, h3, jsOrString, ite_self]
  · intro s endpoint oG p hG hp
    refine startRequest_hit s endpoint oG p ?_ hp
    rw [hG]
    rfl

/-- Witness for C7 at a concrete input: the key of a POST to "/x" with
body "b". -/
theorem getRequestKey_composite_witness :
    getRequestKey "/x" { method := some "POST", body := some "b", headers := [] }
      = "POST:/x:b" := by
  rw [getRequestKey_composite.1 "/x" "b" "POST" [] (by decide)]
  decide

/- Health check model.  The source checkHealth fetches the fixed relative
path "/api/health" (never prefixed with the configured base URL) and
catches every failure, so it is a total function into a result record.
The network is an oracle from the fetched URL to what the awaited calls
produce: a parsed ok body with its optional version field, an ok body
that fails to parse (the awaited json() throws), a non-ok status, or a
thrown fetch. -/

inductive HealthOutcome where
  | okParsed (version : Option String)
  | okUnparseable
  | httpErr (status : Nat)
  | threw
deriving DecidableEq, Repr

structure HealthResult where
  healthy : Bool
  version : Option String
  error : Option String
deriving DecidableEq, Repr

def checkHealth (_s : ClientState) (net : String → HealthOutcome) : HealthResult :=
  match net "/api/health" with
  | HealthOutcome.okParsed v => { healthy := true, version := v, error := none }
  | HealthOutcome.okUnparseable =>
    { healthy := false, version := none, error := some "Unable to connect to server" }
  | HealthOutcome.httpErr st =>
    { healthy := false, version := none, error := some ("Server returned " ++ toString st) }
  | HealthOutcome.threw =>
    { healthy := false, version := none, error := some "Unable to connect to server" }

/-- C8: checkHealth consults only the fixed relative path "/api/health"
and reads no client state at all (in particular not the configured base
URL), and it never throws: it is total, returning healthy with the
reported version on an ok parsed response, an unhealthy record naming
the status on a non-ok response, and the unable-to-connect record on any
thrown failure (including a body of an ok response that fails to
parse). -/
theorem checkHealth_spec (s1 s2 : ClientState) (net : String → HealthOutcome) :
    checkHealth s1 net = checkHealth s2 net ∧
    (∀ v, net "/api/health" = HealthOutcome.okParsed v →
      checkHealth s1 net = { healthy := true, version := v, error := none }) ∧
    (∀ st, net "/api/health" = HealthOutcome.httpErr st →
      checkHealth s1 net
        = { healthy := false, version := none,
            error := some ("Server returned " ++ toString st) }) ∧
    (net "/api/health" = HealthOutcome.threw →
      checkHealth s1 net
        = { healthy := false, version := none,
            error := some "Unable to connect to server" }) ∧
    (net "/api/health" = HealthOutcome.okUnparseable →
      checkHealth s1 net
        = { healthy := false, version := none,
            error := some "Unable to connect to server" }) := by
  refine ⟨rfl, ?_, ?_, ?_, ?_⟩
  · intro v hv
    simp [checkHealth, hv]
  · intro st hst
    simp [checkHealth, hst]
  · intro h
    simp [checkHealth, h]
  · intro h
    simp [checkHealth, h]

/-- Witness for C8: a network answering ok with version 1.0 yields the
healthy record on a concrete client. -/
theorem checkHealth_spec_witness :
    checkHealth (initClient "b") (fun _ => HealthOutcome.okParsed (some "1.0"))
      = { healthy := true, version := some "1.0", error := none } :=
  (checkHealth_spec (initClient "b") (initClient "c")
    (fun _ => HealthOutcome.okParsed (some "1.0"))).2.1 (some "1.0") rfl

/- Multipart upload model.  The source analyzePersonaUpload and
processPersonaUpload call fetch directly (never request()): they POST a
FormData body to their fixed endpoint with only the optional
Authorization header, and classify a non-ok response into a thrown
record whose detail is the parsed body's detail field (the fallback
message only when the body fails to parse — an absent field stays
absent). -/

structure UploadRequest where
  url : String
  method : String
  headers : List (String × String)
  multipart : Bool
deriving DecidableEq, Repr

def authOnlyHeaders (accessToken : Option String) : List (String × String) :=
  match accessToken with
  | some t => [("Authorization", "Bearer " ++ t)]
  | none => []

def analyzeUploadRequest (s : ClientState) : UploadRequest :=
  { url := s.baseUrl ++ "/api/v1/personas/upload/analyze", method := "POST",
    headers := authOnlyHeaders s.accessToken, multipart := true }

def processUploadRequest (s : ClientState) : UploadRequest :=
  { url := s.baseUrl ++ "/api/v1/personas/upload/process", method := "POST",
    headers := authOnlyHeaders s.accessToken, multipart := true }

inductive UploadOutcome where
  | ok (body : String)
  | httpErr (status : Nat) (detailField : Option (Option String))
deriving DecidableEq, Repr

structure UploadError where
  detail : Option String
  status : Nat
deriving DecidableEq, Repr

def classifyUpload (fallback : String) (o : UploadOutcome) : Except UploadError String :=
  match o with
  | UploadOutcome.ok body => Except.ok body
  | UploadOutcome.httpErr st parsed =>
    Except.error
      { detail := (match parsed with | none => some fallback | some d => d), status := st }

def analyzePersonaUpload (s : ClientState) (o : UploadOutcome) :
    ClientState × (UploadRequest × Except UploadError String) :=
  (s, (analyzeUploadRequest s, classifyUpload "Analysis failed" o))

def processPersonaUpload (s : ClientState) (o : UploadOutcome) :
    ClientState × (UploadRequest × Except UploadError String) :=
  (s, (processUploadRequest s, classifyUpload "Upload failed" o))

/-- C9: the multipart upload operations bypass the deduplicating request
path entirely: each call leaves the whole client state — in particular
the pending-request table and the cancellation registry — unchanged,
attaches no JSON Content-Type header, and the request it issues is
independent of the contents of both tables (so two concurrent identical
uploads each issue their own multipart network operation, with no
deduplication applied). -/
theorem uploads_bypass_request_path (s : ClientState) (o : UploadOutcome)
    (pr ac : List (String × Nat)) :
    (analyzePersonaUpload s o).1 = s ∧
    (processPersonaUpload s o).1 = s ∧
    (analyzeUploadRequest s).headers.all (fun e => decide (e.1 ≠ "Content-Type")) = true ∧
    (processUploadRequest s).headers.all (fun e => decide (e.1 ≠ "Content-Type")) = true ∧
    analyzeUploadRequest { s with pendingRequests := pr, abortControllers := ac }
      = analyzeUploadRequest s ∧
    processUploadRequest { s with pendingRequests := pr, abortControllers := ac }
      = processUploadRequest s ∧
    (analyzeUploadRequest s).multipart = true ∧
    (processUploadRequest s).multipart = true := by
  refine ⟨rfl, rfl, ?_, ?_, rfl, rfl, rfl, rfl⟩
  · cases h : s.accessToken <;> simp [analyzeUploadRequest, authOnlyHeaders, h]
  · cases h : s.accessToken <;> simp [processUploadRequest, authOnlyHeaders, h]

/-- C10: when a non-success response's body yields no usable detail —
the body did not parse as JSON, or the parsed detail field is absent or
empty (both falsy under the source's or-fallback) — request() still
rejects with the structured shape, substituting "An error occurred" as
the detail while preserving the original HTTP status unchanged; a
non-empty server-provided detail is propagated as is. -/
theorem httpError_fallback_detail (st : Nat) :
    settleOutcome false (FetchOutcome.httpError st none)
      = PromiseState.rejected { detail := "An error occurred", status := st } ∧
    settleOutcome false (FetchOutcome.httpError st (some ""))
      = PromiseState.rejected { detail := "An error occurred", status := st } ∧
    settleOutcome false (FetchOutcome.httpError st (some "boom"))
      = PromiseState.rejected { detail := "boom", status := st } := by
  refine ⟨rfl, ?_, ?_⟩ <;> simp [settleOutcome, httpStatusError, jsOrString]
